import Mathlib

/-!
# Verification of the btcwallet fork: transaction author and bitcoind event subscriber

This development embeds two subsystems of the repository:

* the transaction author (`NewUnsignedTransaction` and its fee / size / dust
  helpers), exercised by `wallet/txauthor/author_test.go`; the implementation
  itself is not part of the provided sources, so the functions are modelled
  from the specification (each such definition carries a doc comment starting
  with `Modelled from the spec:`), while the concrete scenarios mirror the
  test file literally;
* the bitcoind event-subscriber construction (`chain/bitcoind_events.go`),
  embedded directly from the source.

Amounts are natural numbers of satoshi (the source uses non-negative int64
amounts), sizes are in virtual bytes, and fee rates are satoshi per 1000
virtual bytes.
-/

/-! ## Transaction data model -/

deriving instance DecidableEq for Except

/-- A script is a byte sequence; bytes are abstracted as naturals. -/
abbrev Script := List Nat

/-- A transaction output: value in satoshi and a locking script
(`wire.TxOut`). -/
structure TxOut where
  value : Nat
  pkScript : Script
deriving DecidableEq

/-- An outpoint: transaction hash (abstracted) and output index
(`wire.OutPoint`). -/
structure OutPoint where
  hash : Nat
  index : Nat
deriving DecidableEq

/-- A transaction input (`wire.TxIn`); witness data stays opaque before
signing. -/
structure TxIn where
  previousOutPoint : OutPoint
  signatureScript : Script
deriving DecidableEq

/-- An unsigned transaction (`wire.MsgTx`). -/
structure MsgTx where
  version : Nat
  txIn : List TxIn
  txOut : List TxOut
  lockTime : Nat
deriving DecidableEq

/-- Sum of the output values of a transaction output list. -/
def sumOutputValues (outputs : List TxOut) : Nat :=
  (outputs.map (fun o => o.value)).sum

/-! ## Size estimation

The `txsizes` package is not part of the provided sources; the estimator is
modelled from the spec: it accepts input counts by script type, the output
list and the change script size, and returns a virtual-byte count following
BIP-141 weighting (virtual size = ceil(weight / 4), weight = base x 3 +
total), using worst-case signed input sizes. -/

/-- Serialized size of a Bitcoin variable-length integer
(`wire.VarIntSerializeSize`). -/
def varIntSerializeSize (n : Nat) : Nat :=
  if n < 253 then 1
  else if n ≤ 65535 then 3
  else if n ≤ 4294967295 then 5
  else 9

/-- Worst-case size of a signature script redeeming a compressed P2PKH
output: 1 + 73 + 1 + 33. -/
def RedeemP2PKHSigScriptSize : Nat := 1 + 73 + 1 + 33

/-- Worst-case serialized size of a transaction input redeeming a P2PKH
output: outpoint 36, script length 1, script 108, sequence 4. -/
def RedeemP2PKHInputSize : Nat := 32 + 4 + 1 + RedeemP2PKHSigScriptSize + 4

/-- Size of a P2WPKH public-key script: OP_0, OP_DATA_20, 20-byte hash. -/
def P2WPKHPkScriptSize : Nat := 1 + 1 + 20

/-- Size of a P2PKH public-key script. -/
def P2PKHPkScriptSize : Nat := 1 + 1 + 1 + 20 + 1 + 1

/-- Serialized size of a P2PKH transaction output: value 8, script length 1,
script 25. -/
def P2PKHOutputSize : Nat := 8 + 1 + P2PKHPkScriptSize

/-- Base (non-witness) serialized size of an input redeeming a P2WPKH
output: outpoint 36, empty script length 1, sequence 4. -/
def RedeemP2WPKHInputSize : Nat := 32 + 4 + 1 + 4

/-- Base serialized size of an input redeeming a nested (P2SH-wrapped)
P2WPKH output. -/
def RedeemNestedP2WPKHInputSize : Nat := 32 + 4 + 1 + 23 + 4

/-- Base serialized size of an input redeeming a taproot output. -/
def RedeemP2TRInputSize : Nat := 32 + 4 + 1 + 4

/-- Worst-case witness weight of a P2WPKH spend. -/
def RedeemP2WPKHInputWitnessWeight : Nat := 109

/-- Worst-case witness weight of a nested P2WPKH spend. -/
def RedeemNestedP2WPKHInputWitnessWeight : Nat := 109

/-- Worst-case witness weight of a taproot key spend. -/
def RedeemP2TRInputWitnessWeight : Nat := 66

/-- BIP-141 witness scale factor. -/
def WitnessScaleFactor : Nat := 4

/-- Count of selected inputs by script type, as counted by the author before
fee estimation. -/
structure InputCounts where
  p2pkh : Nat
  p2tr : Nat
  p2wpkh : Nat
  nested : Nat
deriving DecidableEq

/-- Serialized size of one transaction output: value 8, script length
varint, script bytes. -/
def txOutSerializeSize (o : TxOut) : Nat :=
  8 + varIntSerializeSize o.pkScript.length + o.pkScript.length

/-- Sum of the serialized sizes of a list of outputs. -/
def sumOutputSerializeSizes (outputs : List TxOut) : Nat :=
  (outputs.map txOutSerializeSize).sum

/-- Modelled from the spec: `txsizes.EstimateVirtualSize`, absent from the
provided sources.  Worst-case virtual size of a signed transaction with the
given input counts and outputs; when `changeScriptSize` is positive one
additional output of that script size is accounted for.  Virtual size is
ceil(weight / 4) with weight = base x 3 + total. -/
def EstimateVirtualSize (c : InputCounts) (txOuts : List TxOut)
    (changeScriptSize : Nat) : Nat :=
  let changeOutputSize :=
    if 0 < changeScriptSize then
      8 + varIntSerializeSize changeScriptSize + changeScriptSize
    else 0
  let outputCount := txOuts.length + (if 0 < changeScriptSize then 1 else 0)
  let inputCount := c.p2pkh + c.p2tr + c.p2wpkh + c.nested
  let baseSize := 8 + varIntSerializeSize inputCount +
    varIntSerializeSize outputCount +
    c.p2pkh * RedeemP2PKHInputSize +
    c.p2tr * RedeemP2TRInputSize +
    c.p2wpkh * RedeemP2WPKHInputSize +
    c.nested * RedeemNestedP2WPKHInputSize +
    sumOutputSerializeSizes txOuts + changeOutputSize
  let witnessWeight :=
    if 0 < c.p2tr + c.p2wpkh + c.nested then
      2 + c.p2wpkh * RedeemP2WPKHInputWitnessWeight +
        c.nested * RedeemNestedP2WPKHInputWitnessWeight +
        c.p2tr * RedeemP2TRInputWitnessWeight
    else 0
  baseSize + (witnessWeight + WitnessScaleFactor - 1) / WitnessScaleFactor

/-! ## Fee and dust rules -/

/-- Modelled from the spec: `txrules.FeeForSerializeSize`, absent from the
provided sources.  The required fee for a transaction of the given virtual
size: ceil(relayFeePerKb x size / 1000). -/
def FeeForSerializeSize (relayFeePerKb : Nat) (size : Nat) : Nat :=
  (relayFeePerKb * size + 999) / 1000

/-- Modelled from the spec: `txrules.GetDustThreshold`, absent from the
provided sources.  The dust threshold for an output of the given script
size at a relay fee rate: 3 x rate x (output serialized size + 148 bytes to
redeem it) / 1000, per standard dust policy. -/
def GetDustThreshold (scriptSize : Nat) (relayFeePerKb : Nat) : Nat :=
  3 * relayFeePerKb * (8 + varIntSerializeSize scriptSize + scriptSize + 148)
    / 1000

/-! ## Script classification

The author counts previous-output script types to size the inputs.  The
classifiers follow the standard script templates; the empty previous
scripts supplied by the repository's test classify as P2PKH. -/

/-- Standard P2SH template: HASH160, 20-byte push, EQUAL. -/
def isPayToScriptHash (s : Script) : Bool :=
  s.length == 23 && s.headD 0 == 169 && s.getD 1 0 == 20 && s.getD 22 0 == 135

/-- Standard P2WPKH template: OP_0, 20-byte program. -/
def isPayToWitnessPubKeyHash (s : Script) : Bool :=
  s.length == 22 && s.headD 0 == 0 && s.getD 1 0 == 20

/-- Standard taproot template: OP_1, 32-byte program. -/
def isPayToTaproot (s : Script) : Bool :=
  s.length == 34 && s.headD 0 == 81 && s.getD 1 0 == 32

/-- Modelled from the spec: the author's per-input script-type count
(`NewUnsignedTransaction`'s classification loop, absent from the provided
sources).  Anything that is not P2SH, P2WPKH or taproot counts as P2PKH. -/
def classifyScripts (scripts : List Script) : InputCounts :=
  scripts.foldl
    (fun c s =>
      if isPayToScriptHash s then { c with nested := c.nested + 1 }
      else if isPayToWitnessPubKeyHash s then { c with p2wpkh := c.p2wpkh + 1 }
      else if isPayToTaproot s then { c with p2tr := c.p2tr + 1 }
      else { c with p2pkh := c.p2pkh + 1 })
    ⟨0, 0, 0, 0⟩

/-! ## Input and change sources -/

/-- One response of an input source: cumulative selected total, inputs,
parallel input values and parallel previous scripts. -/
structure SelectionResult where
  total : Nat
  inputs : List TxIn
  inputValues : List Nat
  prevScripts : List Script
deriving DecidableEq

/-- An input source: called with a target amount, returns the cumulative
selection or an error when exhausted. -/
abbrev InputSource := Nat → Except Unit SelectionResult

/-- A change source: a script generator (invoked at most once, only when a
change output is added) and the size of any script it produces. -/
structure ChangeSource where
  newScript : Except String Script
  scriptSize : Nat

/-- The two error kinds of the author: input-source exhaustion and a change
script generation failure propagated verbatim. -/
inductive AuthorError where
  | inputSourceError
  | changeScriptError (msg : String)
deriving DecidableEq

/-- The authored unsigned transaction (`txauthor.AuthoredTx`): transaction,
parallel previous scripts and input values, total input, and the change
output index (-1 when no change output was added). -/
structure AuthoredTx where
  tx : MsgTx
  prevScripts : List Script
  prevInputValues : List Nat
  totalInput : Nat
  changeIndex : Int
deriving DecidableEq

/-- Bound on fee/size iteration passes; the spec notes implementations may
stop after a small fixed number of passes instead of looping. -/
def defaultFuel : Nat := 8

/-- Modelled from the spec: the iterative selection loop of
`NewUnsignedTransaction` (absent from the provided sources).  Each pass
estimates the virtual size assuming no change output from the current input
counts (initially zero), sets the target to outputs plus that fee, and
queries the input source; it stops once the selection covers the outputs
plus the no-change fee recomputed from the selected scripts.  A source
error, or failure to converge within the pass bound, is input-source
exhaustion. -/
def selectInputs (fetchInputs : InputSource) (outputs : List TxOut)
    (relayFeePerKb : Nat) : Nat → InputCounts →
    Except AuthorError SelectionResult
  | 0, _ => .error .inputSourceError
  | fuel + 1, counts =>
    let target := sumOutputValues outputs +
      FeeForSerializeSize relayFeePerKb (EstimateVirtualSize counts outputs 0)
    match fetchInputs target with
    | .error _ => .error .inputSourceError
    | .ok r =>
      if sumOutputValues outputs +
          FeeForSerializeSize relayFeePerKb
            (EstimateVirtualSize (classifyScripts r.prevScripts) outputs 0) ≤
          r.total then
        .ok r
      else
        selectInputs fetchInputs outputs relayFeePerKb fuel
          (classifyScripts r.prevScripts)

/-- Modelled from the spec: `txauthor.NewUnsignedTransaction`, absent from
the provided sources (only its test is).  After selection, the fee is
recomputed for the size including a change output; the change amount is the
selected total minus outputs minus that fee.  A change output is appended
only when the rate is nonzero (at rate zero no change is ever added), the
amount is nonzero (the repository's test fixes that zero change outputs are
not included) and the amount is at least the dust threshold; otherwise the
excess is absorbed into the fee and the change index is -1.  Change-script
generation failures are propagated verbatim. -/
def NewUnsignedTransaction (outputs : List TxOut) (relayFeePerKb : Nat)
    (fetchInputs : InputSource) (changeSource : ChangeSource) :
    Except AuthorError AuthoredTx :=
  match selectInputs fetchInputs outputs relayFeePerKb defaultFuel
      ⟨0, 0, 0, 0⟩ with
  | .error e => .error e
  | .ok r =>
    let targetAmount := sumOutputValues outputs
    let counts := classifyScripts r.prevScripts
    let maxRequiredFee := FeeForSerializeSize relayFeePerKb
      (EstimateVirtualSize counts outputs changeSource.scriptSize)
    let changeAmount := r.total - targetAmount - maxRequiredFee
    if relayFeePerKb ≠ 0 ∧ changeAmount ≠ 0 ∧
        GetDustThreshold changeSource.scriptSize relayFeePerKb ≤
          changeAmount then
      match changeSource.newScript with
      | .error e => .error (.changeScriptError e)
      | .ok script =>
        .ok { tx := ⟨1, r.inputs, outputs ++ [⟨changeAmount, script⟩], 0⟩,
              prevScripts := r.prevScripts,
              prevInputValues := r.inputValues,
              totalInput := r.total,
              changeIndex := (outputs.length : Int) }
    else
      .ok { tx := ⟨1, r.inputs, outputs, 0⟩,
            prevScripts := r.prevScripts,
            prevInputValues := r.inputValues,
            totalInput := r.total,
            changeIndex := -1 }

/-! ## The test harness of `wallet/txauthor/author_test.go` -/

/-- `p2pkhOutputs` from the test: each value paired with a zero-filled
script of length `txsizes.P2PKHOutputSize` (34 bytes; the test uses the
output size, not the script size). -/
def p2pkhOutputs (amounts : List Nat) : List TxOut :=
  amounts.map (fun a => ⟨a, List.replicate P2PKHOutputSize 0⟩)

/-- Greedy prefix of the unspents whose running total first reaches the
target (all of them when they cannot); mirrors the consume-in-order loop of
`makeInputSource` in the test. -/
def greedyTake : List Nat → Nat → List Nat
  | _, 0 => []
  | [], _ + 1 => []
  | v :: rest, t + 1 => v :: greedyTake rest (t + 1 - v)

/-- `makeInputSource` from the test: returns unspents in order until the
target is met, never reports an error, uses zero outpoints, nil signature
scripts and empty previous scripts. -/
def testInputSource (unspents : List Nat) : InputSource := fun target =>
  let vals := greedyTake unspents target
  .ok ⟨vals.sum, vals.map (fun _ => ⟨⟨0, 0⟩, []⟩), vals,
    vals.map (fun _ => [])⟩

/-- The change source of the test: a zero-filled P2WPKH-sized script. -/
def testChangeSource : ChangeSource :=
  ⟨.ok (List.replicate P2WPKHPkScriptSize 0), P2WPKHPkScriptSize⟩

/-- Test case 5 of the test file: the single desired output is chosen so
that the residual left for change is exactly 5459 at relay fee 1000. -/
def s3LowOutputs : List TxOut :=
  p2pkhOutputs [100000000 - 5459 - FeeForSerializeSize 1000
    (EstimateVirtualSize ⟨1, 0, 0, 0⟩ (p2pkhOutputs [0]) P2WPKHPkScriptSize)]

/-- Test case 6 of the test file: residual of exactly 5460 at relay fee
1000. -/
def s3HighOutputs : List TxOut :=
  p2pkhOutputs [100000000 - 5460 - FeeForSerializeSize 1000
    (EstimateVirtualSize ⟨1, 0, 0, 0⟩ (p2pkhOutputs [0]) P2WPKHPkScriptSize)]

/-- Test case 1 of the test file: spend 1000000 out of one 100000000
unspent at relay fee 1000. -/
def s1Outputs : List TxOut := p2pkhOutputs [1000000]

/-- Test case 9 of the test file: two unspents available but the first
alone covers the target. -/
def s9Outputs : List TxOut := s3HighOutputs

/-- Test case 11 of the test file: both unspents are needed. -/
def s11Outputs : List TxOut := p2pkhOutputs [100000000]

/-- The authored transaction of the scenario of test case 1 (used as a
concrete change-bearing run). -/
def s1Authored : AuthoredTx :=
  (NewUnsignedTransaction s1Outputs 1000 (testInputSource [100000000])
      testChangeSource).toOption.getD ⟨⟨1, [], [], 0⟩, [], [], 0, -1⟩

/-- The authored transaction of a zero-relay-fee run whose selected total
strictly exceeds the output total. -/
def zeroFeeAuthored : AuthoredTx :=
  (NewUnsignedTransaction (p2pkhOutputs [100000000]) 0
      (testInputSource [200000000])
      testChangeSource).toOption.getD ⟨⟨1, [], [], 0⟩, [], [], 0, -1⟩

/-- The authored transaction of the scenario of test case 9. -/
def s9Authored : AuthoredTx :=
  (NewUnsignedTransaction s9Outputs 1000
      (testInputSource [100000000, 100000000])
      testChangeSource).toOption.getD ⟨⟨1, [], [], 0⟩, [], [], 0, -1⟩

/-- A change source whose script generation fails. -/
def failingChangeSource : ChangeSource := ⟨.error "genfail", P2WPKHPkScriptSize⟩

/-! ## Chain: bitcoind event subscriber (`chain/bitcoind_events.go`) -/

/-- Outcome of the `getnetworkinfo` raw request as the subscriber sees it:
the RPC itself fails, the response fails to unmarshal as JSON, or it
carries a version integer. -/
inductive RawNetworkInfo where
  | rpcErr (msg : String)
  | badJson (msg : String)
  | info (version : Int)
deriving DecidableEq

/-- The slice of the RPC client the construction path consults. -/
structure RpcClient where
  getnetworkinfo : RawNetworkInfo
deriving DecidableEq

/-- Polling configuration (`rpcclient.PollingConfig`); only its presence
matters to construction. -/
structure PollingConfig where
  blockPollingInterval : Nat
  txPollingInterval : Nat
deriving DecidableEq

/-- ZMQ configuration; only its presence matters to construction. -/
structure ZMQConfig where
  zmqBlockHost : String
  zmqTxHost : String
deriving DecidableEq

/-- `chain.BitcoindConfig`, restricted to the two mutually exclusive event
source configurations. -/
structure BitcoindConfig where
  pollingConfig : Option PollingConfig
  zmqConfig : Option ZMQConfig
deriving DecidableEq

/-- Construction-time errors of `NewBitcoindEventSubscriber`.  A nil client
in ZMQ mode would dereference nil inside `RawRequest` in Go; it is modelled
as the distinguished `nilClientCrash`. -/
inductive ChainError where
  | bothConfigs
  | missingRpcClient
  | missingZMQConfig
  | rpcError (msg : String)
  | unmarshalError (msg : String)
  | nilClientCrash
deriving DecidableEq

/-- The constructed event source (`chain.BitcoindEvents`), by
implementation. -/
inductive BitcoindEvents where
  | polling (cfg : PollingConfig) (client : RpcClient)
  | zmq (cfg : ZMQConfig) (client : Option RpcClient) (hasRPC : Bool)
deriving DecidableEq

/-- `hasSpendingPrevoutRPC`: fetches the bitcoind version via the
`getnetworkinfo` raw request and reports whether it is at least 240000 (the
release that added `gettxspendingprevout`); request and unmarshal failures
are returned as errors. -/
def hasSpendingPrevoutRPC (client : RpcClient) : Except ChainError Bool :=
  match client.getnetworkinfo with
  | .rpcErr m => .error (.rpcError m)
  | .badJson m => .error (.unmarshalError m)
  | .info v => .ok (decide (240000 ≤ v))

/-- `newBitcoindZMQEvents`: constructs the ZMQ implementation. -/
def newBitcoindZMQEvents (cfg : ZMQConfig) (client : Option RpcClient)
    (hasRPC : Bool) : Except ChainError BitcoindEvents :=
  .ok (.zmq cfg client hasRPC)

/-- `NewBitcoindEventSubscriber`: rejects configs carrying both polling and
ZMQ configuration; in polling mode requires an RPC client; otherwise
requires the ZMQ configuration, probes `hasSpendingPrevoutRPC` (propagating
its error) and builds the ZMQ implementation. -/
def NewBitcoindEventSubscriber (cfg : BitcoindConfig)
    (client : Option RpcClient) : Except ChainError BitcoindEvents :=
  match cfg.pollingConfig, cfg.zmqConfig with
  | some _, some _ => .error .bothConfigs
  | some pcfg, none =>
    match client with
    | none => .error .missingRpcClient
    | some c => .ok (.polling pcfg c)
  | none, none => .error .missingZMQConfig
  | none, some zcfg =>
    match client with
    | none => .error .nilClientCrash
    | some c =>
      match hasSpendingPrevoutRPC c with
      | .error e => .error e
      | .ok hasRPC => newBitcoindZMQEvents zcfg (some c) hasRPC

/-- A polling configuration used in concrete runs. -/
def pollCfgA : PollingConfig := ⟨10, 10⟩

/-- A ZMQ configuration used in concrete runs. -/
def zmqCfgA : ZMQConfig := ⟨"tcp://a", "tcp://b"⟩

/-- A client whose backend reports version 250000. -/
def clientA : RpcClient := ⟨.info 250000⟩

/-- A client whose backend reports version 100000. -/
def clientB : RpcClient := ⟨.info 100000⟩

/-! ## Helper lemmas about the selection loop -/

/-- A successful selection covers the outputs plus the no-change fee
recomputed from the selected previous scripts. -/
theorem selectInputs_ok_total (fetchInputs : InputSource)
    (outputs : List TxOut) (relayFeePerKb : Nat) :
    ∀ (fuel : Nat) (counts : InputCounts) (r : SelectionResult),
      selectInputs fetchInputs outputs relayFeePerKb fuel counts = .ok r →
      sumOutputValues outputs +
          FeeForSerializeSize relayFeePerKb
            (EstimateVirtualSize (classifyScripts r.prevScripts) outputs 0) ≤
        r.total := by
  intro fuel
  induction fuel with
  | zero => intro counts r h; simp [selectInputs] at h
  | succ n ih =>
    intro counts r h
    simp only [selectInputs] at h
    split at h
    · simp at h
    · rename_i s heq
      split at h
      · rename_i hc
        simp only [Except.ok.injEq] at h
        subst h
        exact hc
      · exact ih _ r h

/-- A successful selection is literally one of the input source's
responses. -/
theorem selectInputs_ok_call (fetchInputs : InputSource)
    (outputs : List TxOut) (relayFeePerKb : Nat) :
    ∀ (fuel : Nat) (counts : InputCounts) (r : SelectionResult),
      selectInputs fetchInputs outputs relayFeePerKb fuel counts = .ok r →
      ∃ t, fetchInputs t = .ok r := by
  intro fuel
  induction fuel with
  | zero => intro counts r h; simp [selectInputs] at h
  | succ n ih =>
    intro counts r h
    simp only [selectInputs] at h
    split at h
    · simp at h
    · rename_i s heq
      split at h
      · rename_i hc
        simp only [Except.ok.injEq] at h
        subst h
        exact ⟨_, heq⟩
      · exact ih _ r h

/-- The selection loop only ever fails with input-source exhaustion. -/
theorem selectInputs_error_kind (fetchInputs : InputSource)
    (outputs : List TxOut) (relayFeePerKb : Nat) :
    ∀ (fuel : Nat) (counts : InputCounts) (e : AuthorError),
      selectInputs fetchInputs outputs relayFeePerKb fuel counts = .error e →
      e = .inputSourceError := by
  intro fuel
  induction fuel with
  | zero =>
    intro counts e h
    simp only [selectInputs, Except.error.injEq] at h
    exact h.symm
  | succ n ih =>
    intro counts e h
    simp only [selectInputs] at h
    split at h
    · simp only [Except.error.injEq] at h
      exact h.symm
    · rename_i s heq
      split at h
      · simp at h
      · exact ih _ e h

/-- Output values of an appended list split additively. -/
theorem sumOutputValues_append (l1 l2 : List TxOut) :
    sumOutputValues (l1 ++ l2) = sumOutputValues l1 + sumOutputValues l2 := by
  simp [sumOutputValues]

/-- Output values of a one-element list. -/
theorem sumOutputValues_singleton (o : TxOut) :
    sumOutputValues [o] = o.value := by
  simp [sumOutputValues]

/-- Appending one output of the change script size to the output list is
accounted identically to passing a positive change script size to the
estimator. -/
theorem estimateVirtualSize_append_change (c : InputCounts)
    (outputs : List TxOut) (v : Nat) (script : Script) (css : Nat)
    (hlen : script.length = css) (hpos : 0 < css) :
    EstimateVirtualSize c (outputs ++ [⟨v, script⟩]) 0 =
      EstimateVirtualSize c outputs css := by
  simp only [EstimateVirtualSize, sumOutputSerializeSizes, txOutSerializeSize,
    List.map_append, List.sum_append, List.map_cons, List.map_nil,
    List.sum_cons, List.sum_nil, List.length_append, List.length_cons,
    List.length_nil, hlen, if_pos hpos]
  simp only [lt_irrefl, if_false, Nat.add_zero, Nat.zero_add]
  omega

/-- An element appended at the end of a list is found at the old length. -/
theorem list_getElem_concat (l : List TxOut) (a : TxOut) :
    (l ++ [a])[l.length]? = some a := by
  induction l with
  | nil => rfl
  | cons x xs ih => simp only [List.cons_append, List.length_cons,
      List.getElem?_cons_succ]; exact ih

/-! ## Claims about the transaction author -/

/-- C1 counterexample: with one 100000000 unspent at relay fee 1000 and the
desired output chosen (exactly as in test case 5 of the repository's test
file) so that the residual left for change is 5459, the change output is
NOT omitted: the change index is 1, not -1 as the claim states. -/
theorem c1_counterexample_change_present :
    (NewUnsignedTransaction s3LowOutputs 1000 (testInputSource [100000000])
        testChangeSource).map AuthoredTx.changeIndex ≠ .ok (-1) ∧
    (NewUnsignedTransaction s3LowOutputs 1000 (testInputSource [100000000])
        testChangeSource).map AuthoredTx.changeIndex = .ok 1 :=
  ⟨by decide, by decide⟩

/-- C1 amended: with one 100000000 unspent at relay fee 1000, a residual of
5459 produces a change output of value 5459 (it is above the dust
threshold for the change script at rate 1000), and a residual of 5460
likewise produces a change output of value 5460; in neither case is the
change absorbed into the fee. -/
theorem c1_dust_amended :
    (NewUnsignedTransaction s3LowOutputs 1000 (testInputSource [100000000])
        testChangeSource).map
        (fun r => (r.changeIndex, (r.tx.txOut.map TxOut.value).getLast?)) =
      .ok (1, some 5459) ∧
    (NewUnsignedTransaction s3HighOutputs 1000 (testInputSource [100000000])
        testChangeSource).map
        (fun r => (r.changeIndex, (r.tx.txOut.map TxOut.value).getLast?)) =
      .ok (1, some 5460) ∧
    GetDustThreshold testChangeSource.scriptSize 1000 ≤ 5459 :=
  ⟨by decide, by decide, by decide⟩

/-- C2: whenever the author succeeds (for an input source that reports its
selected total honestly and a change source whose scripts have the declared
positive size), the selected input values cover the final output values
plus the required fee ceil(rate x vsize / 1000) for the virtual size of the
assembled transaction. -/
theorem c2_fee_invariant (outputs : List TxOut) (relayFeePerKb : Nat)
    (fetchInputs : InputSource) (changeSource : ChangeSource)
    (hsrc : ∀ t s, fetchInputs t = .ok s → s.total = s.inputValues.sum)
    (hlen : ∀ s, changeSource.newScript = .ok s →
      s.length = changeSource.scriptSize)
    (hpos : 0 < changeSource.scriptSize)
    (r : AuthoredTx)
    (hok : NewUnsignedTransaction outputs relayFeePerKb fetchInputs
      changeSource = .ok r) :
    sumOutputValues r.tx.txOut +
        FeeForSerializeSize relayFeePerKb
          (EstimateVirtualSize (classifyScripts r.prevScripts) r.tx.txOut 0) ≤
      r.prevInputValues.sum := by
  simp only [NewUnsignedTransaction] at hok
  split at hok
  · simp at hok
  · rename_i s hsel
    have htot := selectInputs_ok_total fetchInputs outputs relayFeePerKb
      defaultFuel ⟨0, 0, 0, 0⟩ s hsel
    obtain ⟨t, hcall⟩ := selectInputs_ok_call fetchInputs outputs relayFeePerKb
      defaultFuel ⟨0, 0, 0, 0⟩ s hsel
    have hsum : s.total = s.inputValues.sum := hsrc t s hcall
    split at hok
    · rename_i hcond
      obtain ⟨-, hne, -⟩ := hcond
      split at hok
      · simp at hok
      · rename_i script hscript
        simp only [Except.ok.injEq] at hok
        subst hok
        simp only [sumOutputValues_append, sumOutputValues_singleton,
          estimateVirtualSize_append_change _ _ _ _ changeSource.scriptSize
            (hlen script hscript) hpos]
        rw [← hsum]
        omega
    · simp only [Except.ok.injEq] at hok
      subst hok
      simpa [hsum] using htot

/-- C3: whenever the author succeeds and the result carries a change output
(change index at least 0), that output's value is at least the dust
threshold computed for the change script size at the given relay fee
rate. -/
theorem c3_change_not_dust (outputs : List TxOut) (relayFeePerKb : Nat)
    (fetchInputs : InputSource) (changeSource : ChangeSource)
    (r : AuthoredTx)
    (hok : NewUnsignedTransaction outputs relayFeePerKb fetchInputs
      changeSource = .ok r)
    (hchg : 0 ≤ r.changeIndex) :
    ∃ o, r.tx.txOut[r.changeIndex.toNat]? = some o ∧
      GetDustThreshold changeSource.scriptSize relayFeePerKb ≤ o.value := by
  simp only [NewUnsignedTransaction] at hok
  split at hok
  · simp at hok
  · rename_i s hsel
    split at hok
    · rename_i hcond
      obtain ⟨-, -, hdust⟩ := hcond
      split at hok
      · simp at hok
      · rename_i script hscript
        simp only [Except.ok.injEq] at hok
        subst hok
        refine ⟨⟨s.total - sumOutputValues outputs -
          FeeForSerializeSize relayFeePerKb
            (EstimateVirtualSize (classifyScripts s.prevScripts) outputs
              changeSource.scriptSize), script⟩, ?_, hdust⟩
        simp only [Int.toNat_natCast]
        exact list_getElem_concat outputs _
    · simp only [Except.ok.injEq] at hok
      subst hok
      simp at hchg

/-- C3 witness: the change-bearing run of test case 1 (one 100000000
unspent, one 1000000 output, relay fee 1000) has a change output whose
value is at least the dust threshold for the change script at rate 1000. -/
theorem c3_change_not_dust_witness :
    (NewUnsignedTransaction s1Outputs 1000 (testInputSource [100000000])
        testChangeSource = .ok s1Authored) ∧
    0 ≤ s1Authored.changeIndex ∧
    ∃ o, s1Authored.tx.txOut[s1Authored.changeIndex.toNat]? = some o ∧
      GetDustThreshold testChangeSource.scriptSize 1000 ≤ o.value :=
  ⟨by decide, by decide,
    c3_change_not_dust s1Outputs 1000 (testInputSource [100000000])
      testChangeSource s1Authored (by decide) (by decide)⟩

/-- C2 witness: the fee invariant holds on the concrete run of test case 1
(one 100000000 unspent, one 1000000 output, relay fee 1000), whose input
source and change source satisfy the stated contracts. -/
theorem c2_fee_invariant_witness :
    (∀ t s, testInputSource [100000000] t = .ok s →
      s.total = s.inputValues.sum) ∧
    (∀ s, testChangeSource.newScript = .ok s →
      s.length = testChangeSource.scriptSize) ∧
    0 < testChangeSource.scriptSize ∧
    (NewUnsignedTransaction s1Outputs 1000 (testInputSource [100000000])
      testChangeSource = .ok s1Authored) ∧
    sumOutputValues s1Authored.tx.txOut +
        FeeForSerializeSize 1000
          (EstimateVirtualSize (classifyScripts s1Authored.prevScripts)
            s1Authored.tx.txOut 0) ≤
      s1Authored.prevInputValues.sum := by
  have hsrc : ∀ t s, testInputSource [100000000] t = .ok s →
      s.total = s.inputValues.sum := by
    intro t s h
    injection h with h2
    subst h2
    rfl
  have hlen : ∀ s, testChangeSource.newScript = .ok s →
      s.length = testChangeSource.scriptSize := by
    intro s h
    injection h with h2
    subst h2
    decide
  exact ⟨hsrc, hlen, by decide, by decide,
    c2_fee_invariant s1Outputs 1000 (testInputSource [100000000])
      testChangeSource hsrc hlen (by decide) s1Authored (by decide)⟩

/-- C4: the inputs of a successful authored transaction are exactly those
reported by the final (successful) input-source call; in particular, with
two 100000000 unspents and a target the first alone covers, one input is
selected, and when both are needed, two. -/
theorem c4_input_count :
    (∀ (outputs : List TxOut) (relayFeePerKb : Nat)
        (fetchInputs : InputSource) (changeSource : ChangeSource)
        (r : AuthoredTx),
        NewUnsignedTransaction outputs relayFeePerKb fetchInputs
          changeSource = .ok r →
        ∃ t s, fetchInputs t = .ok s ∧
          r.tx.txIn.length = s.inputs.length) ∧
    (NewUnsignedTransaction s9Outputs 1000
        (testInputSource [100000000, 100000000]) testChangeSource).map
        (fun r => r.tx.txIn.length) = .ok 1 ∧
    (NewUnsignedTransaction s11Outputs 1000
        (testInputSource [100000000, 100000000]) testChangeSource).map
        (fun r => r.tx.txIn.length) = .ok 2 := by
  refine ⟨?_, by decide, by decide⟩
  intro outputs relayFeePerKb fetchInputs changeSource r hok
  simp only [NewUnsignedTransaction] at hok
  split at hok
  · simp at hok
  · rename_i s hsel
    obtain ⟨t, hcall⟩ := selectInputs_ok_call fetchInputs outputs
      relayFeePerKb defaultFuel ⟨0, 0, 0, 0⟩ s hsel
    refine ⟨t, s, hcall, ?_⟩
    split at hok
    · split at hok
      · simp at hok
      · simp only [Except.ok.injEq] at hok
        subst hok
        rfl
    · simp only [Except.ok.injEq] at hok
      subst hok
      rfl

/-- C4 witness: in the concrete two-unspent run where the first unspent
covers the target, the authored transaction's input list has the length of
a selection the input source reported. -/
theorem c4_input_count_witness :
    (NewUnsignedTransaction s9Outputs 1000
      (testInputSource [100000000, 100000000]) testChangeSource =
      .ok s9Authored) ∧
    ∃ t s, testInputSource [100000000, 100000000] t = .ok s ∧
      s9Authored.tx.txIn.length = s.inputs.length :=
  ⟨by decide,
    c4_input_count.1 s9Outputs 1000 (testInputSource [100000000, 100000000])
      testChangeSource s9Authored (by decide)⟩

/-- C5: at relay fee rate zero the required fee for any size is zero, and a
successful authored transaction never carries a change output (its change
index is -1 and its outputs are exactly the requested ones), even when the
selected total exceeds the output total; the concrete run with a 200000000
unspent against a 100000000 output shows the excess left as fee. -/
theorem c5_zero_fee_no_change :
    (∀ size, FeeForSerializeSize 0 size = 0) ∧
    (∀ (outputs : List TxOut) (fetchInputs : InputSource)
        (changeSource : ChangeSource) (r : AuthoredTx),
        NewUnsignedTransaction outputs 0 fetchInputs changeSource = .ok r →
        r.changeIndex = -1 ∧ r.tx.txOut = outputs) ∧
    (NewUnsignedTransaction (p2pkhOutputs [100000000]) 0
        (testInputSource [200000000]) testChangeSource).map
        (fun r => (r.changeIndex, r.totalInput)) = .ok (-1, 200000000) := by
  refine ⟨?_, ?_, by decide⟩
  · intro size
    simp [FeeForSerializeSize]
  · intro outputs fetchInputs changeSource r hok
    simp only [NewUnsignedTransaction] at hok
    split at hok
    · simp at hok
    · rename_i s hsel
      split at hok
      · rename_i hcond
        exact absurd rfl hcond.1
      · simp only [Except.ok.injEq] at hok
        subst hok
        exact ⟨rfl, rfl⟩

/-- C5 witness: the concrete zero-rate run selects 200000000 against
100000000 of outputs (a strictly positive excess) and still omits the
change output. -/
theorem c5_zero_fee_no_change_witness :
    (NewUnsignedTransaction (p2pkhOutputs [100000000]) 0
      (testInputSource [200000000]) testChangeSource = .ok zeroFeeAuthored) ∧
    sumOutputValues (p2pkhOutputs [100000000]) < zeroFeeAuthored.totalInput ∧
    (zeroFeeAuthored.changeIndex = -1 ∧
      zeroFeeAuthored.tx.txOut = p2pkhOutputs [100000000]) :=
  ⟨by decide, by decide,
    c5_zero_fee_no_change.2.1 (p2pkhOutputs [100000000])
      (testInputSource [200000000]) testChangeSource zeroFeeAuthored
      (by decide)⟩

/-- C6: the author fails only with input-source exhaustion or with an error
propagated verbatim from the change source's script generation (and then
returns no transaction at all); concretely, one 100000000 unspent against
one 100000000 output at relay fee 1000 fails with input-source
exhaustion. -/
theorem c6_error_kinds :
    (∀ (outputs : List TxOut) (relayFeePerKb : Nat)
        (fetchInputs : InputSource) (changeSource : ChangeSource)
        (e : AuthorError),
        NewUnsignedTransaction outputs relayFeePerKb fetchInputs
          changeSource = .error e →
        e = .inputSourceError ∨
          ∃ m, e = .changeScriptError m ∧
            changeSource.newScript = .error m) ∧
    NewUnsignedTransaction (p2pkhOutputs [100000000]) 1000
      (testInputSource [100000000]) testChangeSource =
      .error .inputSourceError := by
  refine ⟨?_, by decide⟩
  intro outputs relayFeePerKb fetchInputs changeSource e herr
  simp only [NewUnsignedTransaction] at herr
  split at herr
  · rename_i e2 hsel
    simp only [Except.error.injEq] at herr
    subst herr
    exact Or.inl (selectInputs_error_kind fetchInputs outputs relayFeePerKb
      defaultFuel ⟨0, 0, 0, 0⟩ e2 hsel)
  · rename_i s hsel
    split at herr
    · split at herr
      · rename_i m hm
        simp only [Except.error.injEq] at herr
        subst herr
        exact Or.inr ⟨m, rfl, hm⟩
      · simp at herr
    · simp at herr

/-- C6 witness: a change source whose script generation fails makes the
author fail with exactly that error, propagated verbatim. -/
theorem c6_error_kinds_witness :
    (NewUnsignedTransaction s1Outputs 1000 (testInputSource [100000000])
      failingChangeSource = .error (.changeScriptError "genfail")) ∧
    (AuthorError.changeScriptError "genfail" = .inputSourceError ∨
      ∃ m, AuthorError.changeScriptError "genfail" = .changeScriptError m ∧
        failingChangeSource.newScript = .error m) :=
  ⟨by decide,
    c6_error_kinds.1 s1Outputs 1000 (testInputSource [100000000])
      failingChangeSource (.changeScriptError "genfail") (by decide)⟩

/-! ## Claims about the bitcoind event subscriber -/

/-- C7: construction fails whenever both the polling and the ZMQ
configuration are supplied, and whenever neither is; an event source is
only constructed when exactly one of the two is present. -/
theorem c7_config_exclusive :
    (∀ (p : PollingConfig) (z : ZMQConfig) (client : Option RpcClient),
      NewBitcoindEventSubscriber ⟨some p, some z⟩ client =
        .error .bothConfigs) ∧
    (∀ client : Option RpcClient,
      NewBitcoindEventSubscriber ⟨none, none⟩ client =
        .error .missingZMQConfig) ∧
    (∀ (cfg : BitcoindConfig) (client : Option RpcClient)
        (ev : BitcoindEvents),
      NewBitcoindEventSubscriber cfg client = .ok ev →
      (cfg.pollingConfig.isSome ∧ cfg.zmqConfig = none) ∨
        (cfg.pollingConfig = none ∧ cfg.zmqConfig.isSome)) := by
  refine ⟨fun p z client => rfl, fun client => rfl, ?_⟩
  intro cfg client ev hok
  obtain ⟨pc, zc⟩ := cfg
  cases pc with
  | some p =>
    cases zc with
    | some z => simp [NewBitcoindEventSubscriber] at hok
    | none => exact Or.inl ⟨rfl, rfl⟩
  | none =>
    cases zc with
    | some z => exact Or.inr ⟨rfl, rfl⟩
    | none => simp [NewBitcoindEventSubscriber] at hok

/-- C7 witness: a config with only the polling configuration (and an RPC
client) constructs successfully, and the success branch of the claim then
reports exactly one configuration present. -/
theorem c7_config_exclusive_witness :
    (NewBitcoindEventSubscriber ⟨some pollCfgA, none⟩ (some clientA) =
      .ok (.polling pollCfgA clientA)) ∧
    (((some pollCfgA : Option PollingConfig).isSome ∧
        (none : Option ZMQConfig) = none) ∨
      ((some pollCfgA : Option PollingConfig) = none ∧
        (none : Option ZMQConfig).isSome)) :=
  ⟨rfl,
    c7_config_exclusive.2.2 ⟨some pollCfgA, none⟩ (some clientA)
      (.polling pollCfgA clientA) rfl⟩

/-- C8: the backend is judged to have the native `gettxspendingprevout` RPC
exactly when the version integer reported by `getnetworkinfo` is at least
240000; at the boundary, version 240000 qualifies and 239999 does not. -/
theorem c8_version_gate :
    (∀ v : Int, hasSpendingPrevoutRPC ⟨.info v⟩ = .ok (decide (240000 ≤ v))) ∧
    hasSpendingPrevoutRPC ⟨.info 240000⟩ = .ok true ∧
    hasSpendingPrevoutRPC ⟨.info 239999⟩ = .ok false :=
  ⟨fun v => rfl, by decide, by decide⟩

/-- C9: in polling mode a missing RPC client fails construction, and every
successful construction in polling mode was given a client. -/
theorem c9_polling_requires_client :
    (∀ p : PollingConfig,
      NewBitcoindEventSubscriber ⟨some p, none⟩ none =
        .error .missingRpcClient) ∧
    (∀ (p : PollingConfig) (z : Option ZMQConfig) (client : Option RpcClient)
        (ev : BitcoindEvents),
      NewBitcoindEventSubscriber ⟨some p, z⟩ client = .ok ev →
      client.isSome = true) := by
  refine ⟨fun p => rfl, ?_⟩
  intro p z client ev hok
  cases z with
  | some z0 => simp [NewBitcoindEventSubscriber] at hok
  | none =>
    cases client with
    | none => simp [NewBitcoindEventSubscriber] at hok
    | some c => rfl

/-- C9 witness: a concrete successful polling-mode construction indeed
carries a client. -/
theorem c9_polling_requires_client_witness :
    (NewBitcoindEventSubscriber ⟨some pollCfgA, none⟩ (some clientB) =
      .ok (.polling pollCfgA clientB)) ∧
    (some clientB : Option RpcClient).isSome = true :=
  ⟨rfl,
    c9_polling_requires_client.2 pollCfgA none (some clientB)
      (.polling pollCfgA clientB) rfl⟩

/-- C10: in ZMQ mode the `getnetworkinfo` probe runs before the event
source is built, and any probe failure (RPC error or JSON unmarshal error)
is returned as the construction error, with no event source created. -/
theorem c10_probe_error_propagates (z : ZMQConfig) (c : RpcClient)
    (e : ChainError) (h : hasSpendingPrevoutRPC c = .error e) :
    NewBitcoindEventSubscriber ⟨none, some z⟩ (some c) = .error e := by
  simp only [NewBitcoindEventSubscriber]
  rw [h]

/-- C10 witness: a backend whose `getnetworkinfo` request fails makes
ZMQ-mode construction fail with exactly that error; the same holds for an
unmarshal failure. -/
theorem c10_probe_error_propagates_witness :
    (hasSpendingPrevoutRPC ⟨.rpcErr "backend down"⟩ =
      .error (.rpcError "backend down")) ∧
    (NewBitcoindEventSubscriber ⟨none, some zmqCfgA⟩
        (some ⟨.rpcErr "backend down"⟩) =
      .error (.rpcError "backend down")) ∧
    (hasSpendingPrevoutRPC ⟨.badJson "bad payload"⟩ =
      .error (.unmarshalError "bad payload")) ∧
    (NewBitcoindEventSubscriber ⟨none, some zmqCfgA⟩
        (some ⟨.badJson "bad payload"⟩) =
      .error (.unmarshalError "bad payload")) :=
  ⟨rfl, c10_probe_error_propagates zmqCfgA ⟨.rpcErr "backend down"⟩ _ rfl,
    rfl, c10_probe_error_propagates zmqCfgA ⟨.badJson "bad payload"⟩ _ rfl⟩
